import Mathlib

/-!
Verification development for the ECG de-identifier (`deid_ecg.py`).

The program rewrites the ordered list of `tspan` text fragments of a rendered
ECG report: it substitutes a surrogate patient id for the name, clears the MRN
and administrative fields, replaces the acquisition timestamp by its surrogate,
rewrites the birthdate fragment as surrogate birthdate plus computed age, and
shifts every date found in the findings region by the anchor offset.

Instants (Python `datetime`) are modelled as integer seconds counted from
0000-03-01T00:00:00 (proleptic Gregorian); calendar conversion follows the
standard civil-from-days / days-from-civil algorithms.  Python lists of
`tspan` elements become `List Frag`; the two key tables (`defaultdict`s in
`main`) become association lists threaded through `deidentify`, so that the
`defaultdict` insert-on-miss behaviour is observable.  External collaborators
(mutool rendering, file IO) are outside the fragment-level core and are not
modelled; `deidentify` here consumes the fragment list directly.
-/

/-- Decimal digit characters, least index = 0. -/
def digitList : List Char := ['0', '1', '2', '3', '4', '5', '6', '7', '8', '9']

/-- Digit character of `d % 10`. -/
def digCh (d : Nat) : Char := digitList.getD (d % 10) '0'

/-- Fuel-driven most-significant-first decimal digit list of `n`. -/
def natDigsAux : Nat → Nat → List Char
  | 0, _ => []
  | f + 1, n => if n = 0 then [] else natDigsAux f (n / 10) ++ [digCh (n % 10)]

/-- Decimal rendering of a natural number (Python `str` on a nonnegative int,
also the `strftime` numeric fields). -/
def natToStr (n : Nat) : String := if n = 0 then "0" else ⟨natDigsAux n n⟩

/-- Decimal rendering of an integer (Python `str` on an int). -/
def intToStr (i : ℤ) : String :=
  if i < 0 then "-" ++ natToStr i.natAbs else natToStr i.toNat

/-- Two-digit zero-padded rendering (`strftime` `%d`, `%m`, `%H`, `%M`, `%S`). -/
def pad2 (n : Nat) : String := if n < 10 then "0" ++ natToStr n else natToStr n

/-- Count of a character in a string (Python `str.count` for 1-char needles). -/
def cnt (c : Char) (s : String) : Nat := s.data.count c

/-- Gregorian leap-year test. -/
def isLeap (y : Nat) : Bool := (y % 4 == 0 && y % 100 != 0) || y % 400 == 0

/-- Length of month `m` in year `y`. -/
def daysInMonth (y m : Nat) : Nat :=
  if m = 2 then (if isLeap y then 29 else 28)
  else if m = 4 ∨ m = 6 ∨ m = 9 ∨ m = 11 then 30
  else 31

/-- Days from 0000-03-01 to the civil date `y-m-d` (days-from-civil). -/
def dfc (y m d : Nat) : Nat :=
  let y2 := if m ≤ 2 then y - 1 else y
  let era := y2 / 400
  let yoe := y2 % 400
  let mp := if 2 < m then m - 3 else m + 9
  let doy := (153 * mp + 2) / 5 + (d - 1)
  let doe := yoe * 365 + yoe / 4 - yoe / 100 + doy
  era * 146097 + doe

/-- Civil date `(y, m, d)` of day number `z` (civil-from-days). -/
def cfd (z : Nat) : Nat × Nat × Nat :=
  let era := z / 146097
  let doe := z % 146097
  let yoe := (doe - doe / 1460 + doe / 36524 - doe / 146096) / 365
  let y := yoe + era * 400
  let doy := doe - (365 * yoe + yoe / 4 - yoe / 100)
  let mp := (5 * doy + 2) / 153
  let d := doy - (153 * mp + 2) / 5 + 1
  let m := if mp < 10 then mp + 3 else mp - 9
  (if m ≤ 2 then y + 1 else y, m, d)

/-- Instant of the civil datetime `y-m-d h:mi:s`, in seconds from the epoch. -/
def mkDT (y m d h mi s : Nat) : ℤ :=
  86400 * (dfc y m d : ℤ) + 3600 * (h : ℤ) + 60 * (mi : ℤ) + (s : ℤ)

/-- Civil fields `(y, m, d, hour, minute, second)` of an instant. -/
def dtFields (t : ℤ) : Nat × Nat × Nat × Nat × Nat × Nat :=
  let day := (t.fdiv 86400).toNat
  let sod := (t.emod 86400).toNat
  let c := cfd day
  (c.1, c.2.1, c.2.2, sod / 3600, sod / 60 % 60, sod % 60)

/-- Month abbreviations as produced by `strftime` `%b` (C locale). -/
def monListM : List String :=
  ["Jan", "Feb", "Mar", "Apr", "May", "Jun",
   "Jul", "Aug", "Sep", "Oct", "Nov", "Dec"]

/-- Month abbreviations after Python `.upper()`. -/
def monListU : List String :=
  ["JAN", "FEB", "MAR", "APR", "MAY", "JUN",
   "JUL", "AUG", "SEP", "OCT", "NOV", "DEC"]

/-- Mixed-case `%b` for month number `m` (out-of-range fallback unused). -/
def monM (m : Nat) : String := monListM.getD (m - 1) "Xxx"

/-- Uppercased `%b` for month number `m`. -/
def monU (m : Nat) : String := monListU.getD (m - 1) "XXX"

/-- Rendering `strftime('%d-%b-%Y')` of an instant. -/
def strfDateM (t : ℤ) : String :=
  match dtFields t with
  | (y, m, d, _, _, _) => pad2 d ++ "-" ++ monM m ++ "-" ++ natToStr y

/-- Rendering `strftime('%d-%b-%Y').upper()` of an instant. -/
def strfDateU (t : ℤ) : String :=
  match dtFields t with
  | (y, m, d, _, _, _) => pad2 d ++ "-" ++ monU m ++ "-" ++ natToStr y

/-- Rendering `strftime('%H:%M:%S')` of an instant. -/
def strfHMS (t : ℤ) : String :=
  match dtFields t with
  | (_, _, _, h, mi, s) => pad2 h ++ ":" ++ pad2 mi ++ ":" ++ pad2 s

/-- Rendering `strftime('%H:%M')` of an instant. -/
def strfHM (t : ℤ) : String :=
  match dtFields t with
  | (_, _, _, h, mi, _) => pad2 h ++ ":" ++ pad2 mi

/-- Rendering `strftime('%d-%b-%Y %H:%M:%S')` (the script's `strf_ecg`). -/
def strfFullM (t : ℤ) : String := strfDateM t ++ " " ++ strfHMS t

/-- Rendering `strftime('%d-%b-%Y %H:%M:%S').upper()`. -/
def strfFullU (t : ℤ) : String := strfDateU t ++ " " ++ strfHMS t

/-- Rendering `strftime('%d-%b-%Y %H:%M')` (the script's `strf_ecg_alt`). -/
def strfAltM (t : ℤ) : String := strfDateM t ++ " " ++ strfHM t

/-- Rendering `strftime('%d-%b-%Y %H:%M').upper()`. -/
def strfAltU (t : ℤ) : String := strfDateU t ++ " " ++ strfHM t

/-- Rendering `strftime('%Y-%m-%d')` (used in the output file name). -/
def strfYMD (t : ℤ) : String :=
  match dtFields t with
  | (y, m, d, _, _, _) => natToStr y ++ "-" ++ pad2 m ++ "-" ++ pad2 d

/-- Rendering Python `str(datetime)`, `YYYY-MM-DD HH:MM:SS` (log message). -/
def pyStrDT (t : ℤ) : String := strfYMD t ++ " " ++ strfHMS t

/-- ASCII lowercase of one character (Python `str.lower` on the ASCII text of
these documents). -/
def lowCh (c : Char) : Char :=
  if 65 ≤ c.toNat ∧ c.toNat ≤ 90 then Char.ofNat (c.toNat + 32) else c

/-- ASCII lowercase of a string (Python `str.lower`). -/
def lowerS (s : String) : String := ⟨s.data.map lowCh⟩

/-- Does `p` occur at the head of `s`?  (Used both for `re.match` with the
script's literal-text patterns and for substring search.) -/
def leadMatch : List Char → List Char → Bool
  | _, [] => true
  | [], _ :: _ => false
  | c :: cs, d :: ds => c == d && leadMatch cs ds

/-- Python `re.match(pat, text)` for the script's patterns, which contain no
regex metacharacters: a match at the start of the text. -/
def strStarts (s p : String) : Bool := leadMatch s.data p.data

/-- First index `≥ i` at which `nd` occurs in `hay`, scanning left to right. -/
def findFrom : List Char → List Char → Nat → Option Nat
  | hay, nd, i =>
    if leadMatch hay nd then some i
    else
      match hay with
      | [] => none
      | _ :: t => findFrom t nd (i + 1)

/-- Python `hay.find(nd)`: first occurrence index, `-1` when absent. -/
def pyFind (hay nd : String) : ℤ :=
  match findFrom hay.data nd.data 0 with
  | some i => (i : ℤ)
  | none => -1

/-- Effective start position of a Python slice bound `i` on length `n`:
negative values count from the end, and both ends clamp. -/
def sliceIdx (n : Nat) (i : ℤ) : Nat :=
  if 0 ≤ i then i.toNat else ((n : ℤ) + i).toNat

/-- Python `s[:i]`. -/
def pySliceTo (s : String) (i : ℤ) : String := ⟨s.data.take (sliceIdx s.data.length i)⟩

/-- Python `s[i:]`. -/
def pySliceFrom (s : String) (i : ℤ) : String := ⟨s.data.drop (sliceIdx s.data.length i)⟩

/-- Split a string at every occurrence of a separator character (the separator
behaviour of Python `str.split` with an explicit one-char separator). -/
def splitGo (sep : Char) : List Char → List Char → List String
  | [], acc => [⟨acc.reverse⟩]
  | c :: cs, acc =>
    if c == sep then ⟨acc.reverse⟩ :: splitGo sep cs []
    else splitGo sep cs (c :: acc)

/-- Split on one character. -/
def splitCh (sep : Char) (s : String) : List String := splitGo sep s.data []

/-- Parse a nonempty all-digit string as a natural number. -/
def parseNat (s : String) : Option Nat :=
  if s.data = [] then none
  else
    s.data.foldl
      (fun acc c =>
        acc.bind (fun n => if c.isDigit then some (n * 10 + (c.toNat - 48)) else none))
      (some 0)

/-- Month number of a three-letter month abbreviation, case-insensitively. -/
def monLookup (s : String) : Option Nat :=
  match (monListM.map lowerS).indexOf? (lowerS s) with
  | some i => some (i + 1)
  | none => none

/-- Modelled from the spec: the date part `DD-Mon-YYYY` accepted by the
general-purpose date parser (`dateutil.parser.parse`); the day must exist in
the month.  Returns the instant at midnight. -/
def parseDMY (s : String) : Option ℤ :=
  match splitCh '-' s with
  | [ds, ms, ys] => do
      let d ← parseNat ds
      let m ← monLookup ms
      let y ← parseNat ys
      if 1 ≤ d ∧ d ≤ daysInMonth y m then some (86400 * (dfc y m d : ℤ)) else none
  | _ => none

/-- Modelled from the spec: the time part `HH:MM[:SS]` accepted by the
general-purpose date parser.  Returns seconds past midnight. -/
def parseHMS (s : String) : Option ℤ :=
  match splitCh ':' s with
  | [hs, ms] => do
      let h ← parseNat hs
      let mi ← parseNat ms
      if h < 24 ∧ mi < 60 then some (3600 * (h : ℤ) + 60 * (mi : ℤ)) else none
  | [hs, ms, ss] => do
      let h ← parseNat hs
      let mi ← parseNat ms
      let s2 ← parseNat ss
      if h < 24 ∧ mi < 60 ∧ s2 < 60 then
        some (3600 * (h : ℤ) + 60 * (mi : ℤ) + (s2 : ℤ))
      else none
  | _ => none

/-- Modelled from the spec: `dateutil.parser.parse(text)` as used on the
anchor date fragment, accepting the template's `DD-Mon-YYYY HH:MM:SS` (and the
date alone, with time defaulting to midnight); anything else is a parse
failure (`ValueError`). -/
def parseAnchor (s : String) : Option ℤ :=
  match splitCh ' ' s with
  | [d] => parseDMY d
  | [d, t] => do
      let dd ← parseDMY d
      let tt ← parseHMS t
      some (dd + tt)
  | _ => none

/-- Modelled from the spec: the lenient
`dateutil.parser.parse(text, fuzzy_with_tokens=True, ignoretz=True)` call:
the first whitespace token parseable as a `DD-Mon-YYYY` date is taken, an
immediately following `HH:MM[:SS]` token supplies the time of day (otherwise
midnight), and all surrounding prose is ignored. -/
def fuzzyGo : List String → Option ℤ
  | [] => none
  | a :: rest =>
    match parseDMY a with
    | some d =>
      match rest with
      | b :: _ =>
        match parseHMS b with
        | some t => some (d + t)
        | none => some d
      | [] => some d
    | none => fuzzyGo rest

/-- Fuzzy date extraction from a findings fragment (see `fuzzyGo`). -/
def parseFuzzy (s : String) : Option ℤ := fuzzyGo (splitCh ' ' s)

/-- Modelled from the spec: whole-year difference
`dateutil.relativedelta.relativedelta(a, b).years` — the number of complete
calendar years from `b` up to `a` (for `b ≤ a`): add `year(a) − year(b)` years
to `b` (clamping Feb 29 to Feb 28 in a non-leap target year) and subtract one
if that lands past `a`. -/
def addYears (t k : ℤ) : ℤ :=
  let day := (t.fdiv 86400).toNat
  let tod := t.emod 86400
  let c := cfd day
  let y2 := ((c.1 : ℤ) + k).toNat
  let d2 := min c.2.2 (daysInMonth y2 c.2.1)
  86400 * (dfc y2 c.2.1 d2 : ℤ) + tod

/-- Calendar year of an instant. -/
def yearOf (t : ℤ) : Nat := (cfd (t.fdiv 86400).toNat).1

/-- Whole-year difference (see `addYears`). -/
def rdYears (a b : ℤ) : ℤ :=
  let k : ℤ := (yearOf a : ℤ) - (yearOf b : ℤ)
  if addYears b k ≤ a then k else k - 1

/-- One `tspan` text element: its text and its `x` attribute, kept as the list
of per-glyph coordinates (`attrib['x'].split()`). -/
structure Frag where
  text : String
  xs : List String
deriving DecidableEq, Repr

/-- Default fragment (used only for total list access at in-range indices). -/
def frag0 : Frag := ⟨"", []⟩

/-- Effective index of a Python list subscript `i` on length `n`: negative
subscripts count from the end, out-of-range subscripts raise `IndexError`. -/
def pyIdx (n : Nat) (i : ℤ) : Option Nat :=
  if 0 ≤ i then (if i < (n : ℤ) then some i.toNat else none)
  else (if 0 ≤ (n : ℤ) + i then some ((n : ℤ) + i).toNat else none)

/-- Python `l[i]` on a fragment list. -/
def pyGet (l : List Frag) (i : ℤ) : Option Frag :=
  (pyIdx l.length i).bind fun j => l.get? j

/-- Python in-place update of `l[i]` (attribute assignment / `clear()` on the
element); `none` models `IndexError`. -/
def pySet (l : List Frag) (i : ℤ) (f : Frag → Frag) : Option (List Frag) :=
  (pyIdx l.length i).map fun j => l.set j (f (l.getD j frag0))

/-- The seven anchor roles of the `ele_idx` table. -/
inductive Role where
  | mrn | ghs | mm25 | refby | confby | prtaxes | technician
deriving DecidableEq, Repr

/-- Anchor label pattern of each role (the initial string values of
`ele_idx`). -/
def pat : Role → String
  | .mrn => "ID:"
  | .ghs => "Geisinger Health System"
  | .mm25 => "25mm/s"
  | .refby => "Referred by:"
  | .confby => "Confirmed By:"
  | .prtaxes => "P-R-T axes"
  | .technician => "Technician:"

/-- Iteration order of `match_terms` (dict insertion order of `ele_idx`). -/
def roleList : List Role :=
  [.mrn, .ghs, .mm25, .refby, .confby, .prtaxes, .technician]

/-- Resolved anchor indices: `some i` where the scan replaced the pattern by a
fragment index, `none` where the pattern never matched (the string value is
still in `ele_idx`). -/
structure Located where
  mrn : Option Nat
  ghs : Option Nat
  mm25 : Option Nat
  refby : Option Nat
  confby : Option Nat
  prtaxes : Option Nat
  technician : Option Nat
deriving DecidableEq, Repr

/-- No anchor resolved yet. -/
def loc0 : Located := ⟨none, none, none, none, none, none, none⟩

/-- Record role `r` as resolved at fragment index `i`. -/
def applyRole (l : Located) (r : Role) (i : Nat) : Located :=
  match r with
  | .mrn => { l with mrn := some i }
  | .ghs => { l with ghs := some i }
  | .mm25 => { l with mm25 := some i }
  | .refby => { l with refby := some i }
  | .confby => { l with confby := some i }
  | .prtaxes => { l with prtaxes := some i }
  | .technician => { l with technician := some i }

/-- One scan step (the inner `for term in match_terms` loop): the first
still-unmatched pattern that `re.match`es the fragment text is resolved to the
current index and removed from the search set. -/
def scanStep (l : Located) (rem : List Role) (i : Nat) (t : String) :
    Located × List Role :=
  match rem.find? (fun r => strStarts t (pat r)) with
  | some r => (applyRole l r i, rem.erase r)
  | none => (l, rem)

/-- The anchor scan over all fragment texts (lines 101-106). -/
def scanGo : List String → Located → List Role → Nat → Located
  | [], l, _, _ => l
  | t :: ts, l, rem, i =>
    let p := scanStep l rem i t
    scanGo ts p.1 p.2 (i + 1)

/-- Resolved `ele_idx` table for a document. -/
def locate (frags : List Frag) : Located :=
  scanGo (frags.map Frag.text) loc0 roleList 0

/-- The timestamp key: `MRN → list of (real instant, surrogate instant)`,
insertion-ordered like the Python dict. -/
abbrev EcgKey := List (String × List (ℤ × ℤ))

/-- The identity key: `MRN → list of (surrogate id, surrogate birthdate)`. -/
abbrev IdKey := List (String × List (String × ℤ))

/-- Python `defaultdict(dict)` subscript: return the entry, inserting an empty
one when the MRN is absent. -/
def ddGet (k : List (String × List α)) (m : String) :
    List α × List (String × List α) :=
  match List.lookup m k with
  | some v => (v, k)
  | none => ([], k ++ [(m, [])])

/-- Result of processing one document.  `ok` carries the mutated fragments,
the output file name and the warning log; `fail` is a caught per-document
failure (the function returns after logging, no output file); `exc` is an
uncaught Python exception escaping `deidentify`. -/
inductive Outcome where
  | ok (frags : List Frag) (outName : String) (log : List String)
  | fail (log : List String)
  | exc (err : String)
deriving DecidableEq, Repr

/-- Log line of an unparseable anchor date fragment (line 118). -/
def logImgDt (t : String) : String := "wrong field for IMG_DT: " ++ t

/-- Log line of an MRN with no surrogate identity (line 130). -/
def logNoMrn (m : String) : String := "MRN " ++ m ++ " not present in ID key"

/-- Log line of an anchor timestamp missing from the timestamp key (140). -/
def logNoDate (m : String) (d : ℤ) : String :=
  "MRN " ++ m ++ ": ECG date " ++ pyStrDT d ++ " is not present in ECG key"

/-- Warning for a missing optional label fragment (lines 168, 177, 186). -/
def logMissing (label : String) : String :=
  "Please verify that the document has no " ++ label ++ " field"

/-- Log line of an unrecognized date format in a finding (line 214). -/
def logUnknown (t : String) : String := "Unknown DT in finding: " ++ t

/-- The three recognized findings date formats (the punctuation decision
table of lines 201-211). -/
inductive Fmt where
  | full | noSec | dateOnly
deriving DecidableEq, Repr

/-- Classify a findings fragment by its literal dash/colon counts. -/
def findingFmt (t : String) : Option Fmt :=
  if cnt '-' t = 2 ∧ cnt ':' t = 2 then some .full
  else if cnt '-' t = 2 ∧ cnt ':' t = 1 then some .noSec
  else if cnt '-' t = 2 ∧ cnt ':' t = 0 then some .dateOnly
  else none

/-- Uppercased rendering of the shifted instant in a classified format. -/
def strfU : Fmt → ℤ → String
  | .full, t => strfFullU t
  | .noSec, t => strfAltU t
  | .dateOnly, t => strfDateU t

/-- Mixed-case canonical rendering of the parsed instant (the `phi_date`
search needle). -/
def strfM : Fmt → ℤ → String
  | .full, t => strfFullM t
  | .noSec, t => strfAltM t
  | .dateOnly, t => strfDateM t

/-- The findings shift (line 198): `finding_dt[0] - (ecg_date -
deid_ecg_date)`. -/
def shiftFinding (t r s : ℤ) : ℤ := t - (r - s)

/-- Result of the findings-loop body on one fragment text. -/
inductive FindRes where
  | unchanged
  | updated (t : String)
  | unknownFmt
deriving DecidableEq, Repr

/-- Findings-loop body (lines 193-227) on one fragment text: fuzzy-parse;
classify the format by punctuation counts; render the shifted instant
uppercased; locate the canonical rendering of the parsed instant
case-insensitively; splice the replacement over it. -/
def findingStep (ecgDate deidDate : ℤ) (t : String) : FindRes :=
  match parseFuzzy t with
  | none => .unchanged
  | some v =>
    match findingFmt t with
    | none => .unknownFmt
    | some fmt =>
      let r := strfU fmt (shiftFinding v ecgDate deidDate)
      let phi := strfM fmt v
      let idx := pyFind (lowerS t) (lowerS phi)
      .updated (pySliceTo t idx ++ r ++ pySliceFrom t (idx + (r.length : ℤ)))

/-- The findings loop (`for finding in range(...)`), visiting `c` indices
starting at `i`; the boolean is false when an unrecognized format aborted the
document. -/
def findingsGo (ecgDate deidDate : ℤ) :
    List Frag → Nat → Nat → List String → List Frag × List String × Bool
  | l, _, 0, log => (l, log, true)
  | l, i, c + 1, log =>
    let t := (l.getD i frag0).text
    match findingStep ecgDate deidDate t with
    | .unchanged => findingsGo ecgDate deidDate l (i + 1) c log
    | .updated t2 =>
        findingsGo ecgDate deidDate (l.set i { l.getD i frag0 with text := t2 })
          (i + 1) c log
    | .unknownFmt => (l, log ++ [logUnknown t], false)

/-- One optional-label block (lines 165-190): when the anchor is resolved the
fragment text is reset to the bare label; when it is not, indexing the element
list with the leftover pattern string raises a `TypeError` that the block
catches and logs as a warning. -/
def setLabel (l : List Frag) (o : Option Nat) (label warn : String)
    (log : List String) : List Frag × List String :=
  match o with
  | some i => (l.set i { l.getD i frag0 with text := label }, log)
  | none => (l, log ++ [warn])

/-- The identifier mutations of lines 151-190: surrogate id over the name
(dropping per-glyph x coordinates), surrogate date over the ECG date,
surrogate birthdate plus computed age over the birthdate fragment, clearing of
the trailing administrative fragment and of the MRN fragment, and relabelling
of the three optional physician/technician fragments (warning when an optional
anchor is unresolved).  `none` models an uncaught `IndexError`. -/
def deidMutate (iMrn iPrt : Nat) (loc : Located) (ptId : String)
    (bday deidDate : ℤ) (frags : List Frag) : Option (List Frag × List String) :=
  match pySet frags ((iMrn : ℤ) - 1)
      (fun f => { f with text := ptId, xs := f.xs.take 1 }) with
  | none => none
  | some f1 =>
  match pySet f1 ((iMrn : ℤ) + 1)
      (fun f => { f with text := strfFullM deidDate, xs := f.xs.take 1 }) with
  | none => none
  | some f2 =>
  match pySet f2 ((iPrt : ℤ) + 1)
      (fun f =>
        { f with text :=
            strfDateU bday ++ " (" ++ intToStr (rdYears deidDate bday) ++ " yr)" }) with
  | none => none
  | some f3 =>
  match pySet f3 (-1) (fun _ => frag0) with
  | none => none
  | some f4 =>
  match pySet f4 (iMrn : ℤ) (fun _ => frag0) with
  | none => none
  | some f5 =>
  let p6 := setLabel f5 loc.technician "Technician:" (logMissing "Technician:") []
  let p7 := setLabel p6.1 loc.confby "Confirmed By:" (logMissing "Confirmed by:") p6.2
  let p8 := setLabel p7.1 loc.refby "Referred by:" (logMissing "Referred by:") p7.2
  some p8

/-- The per-document redaction (`deidentify`, lines 54-233), from the fragment
list of the rendered document.  The key tables are threaded through because
they are `defaultdict`s: a lookup of an absent MRN inserts an empty entry.
An unresolved required anchor leaves the pattern string in `ele_idx`, so the
offset arithmetic of lines 108-112 (respectively the `range` call of line 192
for the `25mm/s` anchor) raises an uncaught `TypeError`. -/
def deidentify (mrn : String) (frags : List Frag) (ecgKey : EcgKey)
    (idKey : IdKey) : Outcome × EcgKey × IdKey :=
  let loc := locate frags
  match loc.mrn with
  | none => (.exc "TypeError", ecgKey, idKey)
  | some iMrn =>
  match loc.ghs with
  | none => (.exc "TypeError", ecgKey, idKey)
  | some iGhs =>
  match loc.prtaxes with
  | none => (.exc "TypeError", ecgKey, idKey)
  | some iPrt =>
  match pyGet frags ((iMrn : ℤ) + 1) with
  | none => (.exc "IndexError", ecgKey, idKey)
  | some ecgFrag =>
  match parseAnchor ecgFrag.text with
  | none => (.fail [logImgDt ecgFrag.text], ecgKey, idKey)
  | some ecgDate =>
  let q := ddGet idKey mrn
  match q.1.head? with
  | none => (.fail [logNoMrn mrn], ecgKey, q.2)
  | some (ptId, bday) =>
  let p := ddGet ecgKey mrn
  match List.lookup ecgDate p.1 with
  | none => (.fail [logNoDate mrn ecgDate], p.2, q.2)
  | some deidDate =>
  match deidMutate iMrn iPrt loc ptId bday deidDate frags with
  | none => (.exc "IndexError", p.2, q.2)
  | some fw =>
  match loc.mm25 with
  | none => (.exc "TypeError", p.2, q.2)
  | some iMm =>
  let res := findingsGo ecgDate deidDate fw.1 (iGhs + 1) (iMm - (iGhs + 1)) []
  if res.2.2 then
    (.ok res.1 (ptId ++ "_" ++ strfYMD deidDate ++ "_EKG.svg") (fw.2 ++ res.2.1),
     p.2, q.2)
  else (.fail (fw.2 ++ res.2.1), p.2, q.2)

/-- The batch loop of `main` (lines 269-273): one `deidentify` call per
document, threading the shared key tables; there is no handler around the
call, so an escaping exception aborts the whole batch. -/
def runBatch : List (String × List Frag) → EcgKey → IdKey →
    Except String (List Outcome × EcgKey × IdKey)
  | [], ek, ik => .ok ([], ek, ik)
  | (m, d) :: rest, ek, ik =>
    match deidentify m d ek ik with
    | (.exc e, _, _) => .error e
    | (o, ek1, ik1) =>
      match runBatch rest ek1 ik1 with
      | .error e => .error e
      | .ok (os, ek2, ik2) => .ok (o :: os, ek2, ik2)

/-- The §8 end-to-end scenario document: the template fragment order with MRN
12345, anchor date 15-Mar-2020 10:30:00 and one findings date fragment. -/
def demoDoc : List Frag :=
  [⟨"DOE JOHN", ["10", "15", "20"]⟩,
   ⟨"ID:12345", ["10", "14"]⟩,
   ⟨"15-Mar-2020 10:30:00", ["10", "13"]⟩,
   ⟨"Geisinger Health System", ["200"]⟩,
   ⟨"Compared to prior ECG dated 14-Mar-2020", ["220"]⟩,
   ⟨"25mm/s", ["230"]⟩,
   ⟨"Referred by: SMITH ALICE", ["240"]⟩,
   ⟨"Confirmed By: JONES BOB", ["250"]⟩,
   ⟨"Technician: TECH TED", ["260"]⟩,
   ⟨"P-R-T axes", ["270"]⟩,
   ⟨"10-Jan-1950", ["280"]⟩,
   ⟨"EID:77 EDT: ORDER: ACCOUNT:", ["290"]⟩]

/-- A document with no `ID:` fragment (no anchor matches at all). -/
def badDoc : List Frag := [⟨"no anchors in this document", ["0"]⟩]

/-- The §8 timestamp key: `12345, 2020-03-15 10:30:00 → 2000-01-01
00:00:00`. -/
def demoEcgKey : EcgKey :=
  [("12345", [(mkDT 2020 3 15 10 30 0, mkDT 2000 1 1 0 0 0)])]

/-- The §8 identity key: `12345 → (PT001, 1950-01-10)`. -/
def demoIdKey : IdKey := [("12345", [("PT001", mkDT 1950 1 10 0 0 0)])]

/-- An identity key holding two surrogate identities for MRN 12345. -/
def demoIdKey2 : IdKey :=
  [("12345", [("PT001", mkDT 1950 1 10 0 0 0), ("PT002", mkDT 1960 2 2 0 0 0)])]

/-- Is the outcome a successfully written document? -/
def isOk : Outcome → Bool
  | .ok _ _ _ => true
  | _ => false

/-- Fragment list of an `ok` outcome. -/
def outFrags : Outcome → List Frag
  | .ok f _ _ => f
  | _ => []

/-- Output file name of an `ok` outcome. -/
def outName : Outcome → String
  | .ok _ n _ => n
  | _ => ""

/-- A variant of the §8 document whose findings fragment parses as a date but
carries an unrecognized punctuation pattern (two dashes, three colons). -/
def demoDocBad : List Frag :=
  [⟨"DOE JOHN", ["10", "15", "20"]⟩,
   ⟨"ID:12345", ["10", "14"]⟩,
   ⟨"15-Mar-2020 10:30:00", ["10", "13"]⟩,
   ⟨"Geisinger Health System", ["200"]⟩,
   ⟨"Noted 14-Mar-2020 10:30:00 extra:", ["220"]⟩,
   ⟨"25mm/s", ["230"]⟩,
   ⟨"Referred by: SMITH ALICE", ["240"]⟩,
   ⟨"Confirmed By: JONES BOB", ["250"]⟩,
   ⟨"Technician: TECH TED", ["260"]⟩,
   ⟨"P-R-T axes", ["270"]⟩,
   ⟨"10-Jan-1950", ["280"]⟩,
   ⟨"EID:77 EDT: ORDER: ACCOUNT:", ["290"]⟩]

/-- C3: the findings shift computes `t - (r - s)` exactly, to the second;
shifting the real anchor `r` itself yields the surrogate anchor `s`, and
adding the offset `r - s` back to a shifted value reproduces `t` exactly. -/
theorem C3_offset_symmetry (r s t : ℤ) :
    shiftFinding t r s = t - (r - s) ∧ shiftFinding r r s = s ∧
    shiftFinding t r s + (r - s) = t := by
  refine ⟨rfl, ?_, ?_⟩ <;> simp [shiftFinding]

/-- C1 counterexample: on the §8 scenario (real anchor 2020-03-15 10:30:00,
surrogate anchor 2000-01-01, surrogate birthdate 1950-01-10) the rendered age
is the whole-year difference of the two surrogate values, 49, while the
whole-year difference between the real anchor and the claimed real birthdate
1950-01-10 is 70; the birthdate fragment does not read `70 yr`. -/
theorem C1_counterexample :
    ((outFrags (deidentify "12345" demoDoc demoEcgKey demoIdKey).1).getD 10 frag0).text
        = "10-JAN-1950 (" ++
            intToStr (rdYears (mkDT 2000 1 1 0 0 0) (mkDT 1950 1 10 0 0 0)) ++ " yr)" ∧
    rdYears (mkDT 2000 1 1 0 0 0) (mkDT 1950 1 10 0 0 0) = 49 ∧
    rdYears (mkDT 2020 3 15 10 30 0) (mkDT 1950 1 10 0 0 0) = 70 ∧
    ((outFrags (deidentify "12345" demoDoc demoEcgKey demoIdKey).1).getD 10 frag0).text
        ≠ "10-JAN-1950 (70 yr)" := by
  refine ⟨by rfl, by decide, by decide, by decide⟩

/-- C2 counterexample: a document with no `ID:` fragment makes `deidentify`
raise an uncaught `TypeError` (line 108 subtracts 1 from the pattern string),
which propagates into the batch loop and aborts it before the next document —
a document that on its own processes successfully — is reached. -/
theorem C2_counterexample :
    (deidentify "12345" badDoc demoEcgKey demoIdKey).1 = Outcome.exc "TypeError" ∧
    runBatch [("12345", badDoc), ("12345", demoDoc)] demoEcgKey demoIdKey
        = Except.error "TypeError" ∧
    isOk (deidentify "12345" demoDoc demoEcgKey demoIdKey).1 = true := by
  refine ⟨by decide, by rfl, by decide⟩

/-- C6 counterexample: an MRN with two surrogate identities in the identity
key is processed without any failure — the first-listed identity `PT001` is
used for the name fragment and the output file name. -/
theorem C6_counterexample :
    demoIdKey2 = [("12345", [("PT001", mkDT 1950 1 10 0 0 0),
                             ("PT002", mkDT 1960 2 2 0 0 0)])] ∧
    isOk (deidentify "12345" demoDoc demoEcgKey demoIdKey2).1 = true ∧
    ((outFrags (deidentify "12345" demoDoc demoEcgKey demoIdKey2).1).getD 0 frag0).text
        = "PT001" ∧
    outName (deidentify "12345" demoDoc demoEcgKey demoIdKey2).1
        = "PT001_2000-01-01_EKG.svg" := by
  refine ⟨by rfl, by decide, by rfl, by rfl⟩

/-- C7 counterexample: invoking `deidentify` for a document whose MRN is
absent from the identity key changes the identity key — the `defaultdict`
lookup of line 127 inserts an empty entry for MRN 12345, so the set of MRNs
stored in the key grows. -/
theorem C7_counterexample :
    (deidentify "12345" demoDoc demoEcgKey ([] : IdKey)).2.2 = [("12345", [])] ∧
    ([] : IdKey) ≠ [("12345", [])] := by
  refine ⟨by decide, by decide⟩

/-- C8 amended: the §8 scenario produces output `PT001_2000-01-01_EKG.svg`
with the name fragment `PT001`, the MRN fragment empty and the trailing
administrative fragment cleared — but the ECG-date fragment reads
`01-Jan-2000 00:00:00` (strftime output is not uppercased at line 154), and
the findings fragment becomes `Compared to prior ECG dated 30-DEC-1999`: the
fuzzy-parsed finding is midnight 14-Mar-2020 and subtracting the offset, which
includes the anchor's 10:30:00 time of day, lands on 30-Dec-1999 13:30:00. -/
theorem C8_amended_scenario :
    (deidentify "12345" demoDoc demoEcgKey demoIdKey).1 =
      Outcome.ok
        [⟨"PT001", ["10"]⟩,
         ⟨"", []⟩,
         ⟨"01-Jan-2000 00:00:00", ["10"]⟩,
         ⟨"Geisinger Health System", ["200"]⟩,
         ⟨"Compared to prior ECG dated 30-DEC-1999", ["220"]⟩,
         ⟨"25mm/s", ["230"]⟩,
         ⟨"Referred by:", ["240"]⟩,
         ⟨"Confirmed By:", ["250"]⟩,
         ⟨"Technician:", ["260"]⟩,
         ⟨"P-R-T axes", ["270"]⟩,
         ⟨"10-JAN-1950 (49 yr)", ["280"]⟩,
         ⟨"", []⟩]
        "PT001_2000-01-01_EKG.svg"
        [] := by
  rfl

/-- C8 counterexample: in the §8 scenario the ECG-date fragment is not the
claimed uppercase `01-JAN-2000 00:00:00`, and the findings fragment is not the
claimed `Compared to prior ECG dated 31-DEC-1999`, even though the document is
processed successfully. -/
theorem C8_counterexample :
    isOk (deidentify "12345" demoDoc demoEcgKey demoIdKey).1 = true ∧
    ((outFrags (deidentify "12345" demoDoc demoEcgKey demoIdKey).1).getD 2 frag0).text
        ≠ "01-JAN-2000 00:00:00" ∧
    ((outFrags (deidentify "12345" demoDoc demoEcgKey demoIdKey).1).getD 4 frag0).text
        ≠ "Compared to prior ECG dated 31-DEC-1999" := by
  refine ⟨by decide, by decide, by decide⟩

theorem strData_append (s t : String) : (s ++ t).data = s.data ++ t.data := by
  cases s; cases t; rfl

theorem cnt_append (c : Char) (s t : String) :
    cnt c (s ++ t) = cnt c s + cnt c t := by
  simp [cnt, strData_append, List.count_append]

theorem digCh_mem (d : Nat) : digCh d ∈ digitList := by
  unfold digCh
  have h : d % 10 < 10 := Nat.mod_lt _ (by norm_num)
  generalize d % 10 = k at h ⊢
  interval_cases k <;> decide

theorem natDigsAux_mem (f n : Nat) : ∀ c ∈ natDigsAux f n, c ∈ digitList := by
  induction f generalizing n with
  | zero => intro c hc; simp [natDigsAux] at hc
  | succ f ih =>
    intro c hc
    unfold natDigsAux at hc
    by_cases hn : n = 0
    · simp [hn] at hc
    · rw [if_neg hn] at hc
      rcases List.mem_append.1 hc with h | h
      · exact ih _ c h
      · rw [List.mem_singleton] at h
        subst h
        exact digCh_mem _

theorem natToStr_mem (n : Nat) : ∀ c ∈ (natToStr n).data, c ∈ digitList := by
  unfold natToStr
  by_cases h : n = 0
  · rw [if_pos h]; intro c hc; simp at hc; subst hc; decide
  · rw [if_neg h]; exact natDigsAux_mem n n

theorem pad2_mem (n : Nat) : ∀ c ∈ (pad2 n).data, c ∈ digitList := by
  unfold pad2
  by_cases h : n < 10
  · rw [if_pos h]; intro c hc
    rw [strData_append] at hc
    rcases List.mem_append.1 hc with h2 | h2
    · simp at h2; subst h2; decide
    · exact natToStr_mem n c h2
  · rw [if_neg h]; exact natToStr_mem n

theorem cnt_of_digits {s : String} (h : ∀ c ∈ s.data, c ∈ digitList)
    {c0 : Char} (hc : c0 ∉ digitList) : cnt c0 s = 0 := by
  unfold cnt
  rw [List.count_eq_zero]
  intro hm
  exact hc (h _ hm)

theorem natToStr_cnt (n : Nat) {c : Char} (hc : c = '-' ∨ c = ':') :
    cnt c (natToStr n) = 0 := by
  refine cnt_of_digits (natToStr_mem n) ?_
  rcases hc with rfl | rfl <;> decide

theorem pad2_cnt (n : Nat) {c : Char} (hc : c = '-' ∨ c = ':') :
    cnt c (pad2 n) = 0 := by
  refine cnt_of_digits (pad2_mem n) ?_
  rcases hc with rfl | rfl <;> decide

theorem monU_cnt (m : Nat) {c : Char} (hc : c = '-' ∨ c = ':') :
    cnt c (monU m) = 0 := by
  unfold monU
  rcases Nat.lt_or_ge (m - 1) 12 with h | h
  · generalize m - 1 = k at h
    interval_cases k <;> rcases hc with rfl | rfl <;> decide
  · rw [List.getD_eq_default _ _ (le_trans (by decide) h)]
    rcases hc with rfl | rfl <;> decide

theorem strfDateU_cnt (t : ℤ) :
    cnt '-' (strfDateU t) = 2 ∧ cnt ':' (strfDateU t) = 0 := by
  unfold strfDateU
  rcases hdt : dtFields t with ⟨y, m, d, h, mi, s⟩
  constructor <;>
    simp [cnt_append, pad2_cnt _ (Or.inl rfl), pad2_cnt _ (Or.inr rfl),
      monU_cnt _ (Or.inl rfl), monU_cnt _ (Or.inr rfl),
      natToStr_cnt _ (Or.inl rfl), natToStr_cnt _ (Or.inr rfl)] <;>
    decide

theorem strfHMS_cnt (t : ℤ) :
    cnt '-' (strfHMS t) = 0 ∧ cnt ':' (strfHMS t) = 2 := by
  unfold strfHMS
  rcases hdt : dtFields t with ⟨y, m, d, h, mi, s⟩
  constructor <;>
    simp [cnt_append, pad2_cnt _ (Or.inl rfl), pad2_cnt _ (Or.inr rfl)] <;>
    decide

theorem strfHM_cnt (t : ℤ) :
    cnt '-' (strfHM t) = 0 ∧ cnt ':' (strfHM t) = 1 := by
  unfold strfHM
  rcases hdt : dtFields t with ⟨y, m, d, h, mi, s⟩
  constructor <;>
    simp [cnt_append, pad2_cnt _ (Or.inl rfl), pad2_cnt _ (Or.inr rfl)] <;>
    decide

theorem strfFullU_cnt (t : ℤ) :
    cnt '-' (strfFullU t) = 2 ∧ cnt ':' (strfFullU t) = 2 := by
  unfold strfFullU
  constructor <;>
    simp [cnt_append, (strfDateU_cnt t).1, (strfDateU_cnt t).2,
      (strfHMS_cnt t).1, (strfHMS_cnt t).2] <;>
    decide

theorem strfAltU_cnt (t : ℤ) :
    cnt '-' (strfAltU t) = 2 ∧ cnt ':' (strfAltU t) = 1 := by
  unfold strfAltU
  constructor <;>
    simp [cnt_append, (strfDateU_cnt t).1, (strfDateU_cnt t).2,
      (strfHM_cnt t).1, (strfHM_cnt t).2] <;>
    decide

/-- C4: a findings fragment that parses and is classified has exactly two
dashes; the classification follows the colon count (two → full datetime, one →
datetime without seconds, zero → date-only, rendered through `strf_ecg`,
`strf_ecg_alt` and `%d-%b-%Y` respectively), and the uppercased replacement
rendering of the shifted instant carries the identical dash and colon counts
as the classified original fragment. -/
theorem C4_format_preservation (t : String) (v sh : ℤ) (fmt : Fmt)
    (_hp : parseFuzzy t = some v) (hf : findingFmt t = some fmt) :
    cnt '-' t = 2 ∧
    (fmt = Fmt.full ↔ cnt ':' t = 2) ∧
    (fmt = Fmt.noSec ↔ cnt ':' t = 1) ∧
    (fmt = Fmt.dateOnly ↔ cnt ':' t = 0) ∧
    strfU Fmt.full sh = strfFullU sh ∧
    strfU Fmt.noSec sh = strfAltU sh ∧
    strfU Fmt.dateOnly sh = strfDateU sh ∧
    cnt '-' (strfU fmt sh) = 2 ∧
    cnt ':' (strfU fmt sh) = cnt ':' t := by
  unfold findingFmt at hf
  split_ifs at hf with h1 h2 h3 <;> injection hf with hf <;> subst hf
  · exact ⟨h1.1, by simp [h1.2], by simp [h1.2], by simp [h1.2], rfl, rfl, rfl,
      (strfFullU_cnt sh).1, by simp only [strfU]; rw [(strfFullU_cnt sh).2, h1.2]⟩
  · exact ⟨h2.1, by simp [h2.2], by simp [h2.2], by simp [h2.2], rfl, rfl, rfl,
      (strfAltU_cnt sh).1, by simp only [strfU]; rw [(strfAltU_cnt sh).2, h2.2]⟩
  · exact ⟨h3.1, by simp [h3.2], by simp [h3.2], by simp [h3.2], rfl, rfl, rfl,
      (strfDateU_cnt sh).1, by simp only [strfU]; rw [(strfDateU_cnt sh).2, h3.2]⟩

/-- C4 witness: the §8 findings fragment, classified date-only, rendered with
the same two-dash zero-colon pattern. -/
theorem C4_witness :
    parseFuzzy "Compared to prior ECG dated 14-Mar-2020"
        = some (mkDT 2020 3 14 0 0 0) ∧
    findingFmt "Compared to prior ECG dated 14-Mar-2020" = some Fmt.dateOnly ∧
    (cnt '-' "Compared to prior ECG dated 14-Mar-2020" = 2 ∧
     (Fmt.dateOnly = Fmt.full ↔ cnt ':' "Compared to prior ECG dated 14-Mar-2020" = 2) ∧
     (Fmt.dateOnly = Fmt.noSec ↔ cnt ':' "Compared to prior ECG dated 14-Mar-2020" = 1) ∧
     (Fmt.dateOnly = Fmt.dateOnly ↔ cnt ':' "Compared to prior ECG dated 14-Mar-2020" = 0) ∧
     strfU Fmt.full (mkDT 1999 12 30 13 30 0) = strfFullU (mkDT 1999 12 30 13 30 0) ∧
     strfU Fmt.noSec (mkDT 1999 12 30 13 30 0) = strfAltU (mkDT 1999 12 30 13 30 0) ∧
     strfU Fmt.dateOnly (mkDT 1999 12 30 13 30 0) = strfDateU (mkDT 1999 12 30 13 30 0) ∧
     cnt '-' (strfU Fmt.dateOnly (mkDT 1999 12 30 13 30 0)) = 2 ∧
     cnt ':' (strfU Fmt.dateOnly (mkDT 1999 12 30 13 30 0))
        = cnt ':' "Compared to prior ECG dated 14-Mar-2020") := by
  refine ⟨by rfl, by rfl, ?_⟩
  exact C4_format_preservation _ _ (mkDT 1999 12 30 13 30 0) _ (by rfl) (by rfl)

theorem findFrom_none (nd : List Char) :
    ∀ (hay : List Char) (i : Nat),
      findFrom hay nd i = none ↔ ∀ k, leadMatch (hay.drop k) nd = false := by
  intro hay
  induction hay with
  | nil =>
    intro i
    rw [findFrom]
    by_cases h : leadMatch [] nd
    · rw [if_pos h]
      constructor
      · intro hc; cases hc
      · intro hk
        have h0 := hk 0
        rw [List.drop_nil, h] at h0
        cases h0
    · rw [if_neg h]
      constructor
      · intro _ k
        rw [List.drop_nil]
        exact Bool.eq_false_iff.mpr h
      · intro _; rfl
  | cons c t ih =>
    intro i
    rw [findFrom]
    by_cases h : leadMatch (c :: t) nd
    · rw [if_pos h]
      constructor
      · intro hc; cases hc
      · intro hk
        have h0 := hk 0
        rw [List.drop_zero, h] at h0
        cases h0
    · rw [if_neg h]
      constructor
      · intro hc k
        cases k with
        | zero =>
          rw [List.drop_zero]
          exact Bool.eq_false_iff.mpr h
        | succ k2 =>
          have h2 := (ih (i + 1)).1 hc
          simpa using h2 k2
      · intro hk
        refine (ih (i + 1)).2 ?_
        intro k
        have h2 := hk (k + 1)
        simpa using h2

theorem natToStr_ne_nil (n : Nat) : (natToStr n).data ≠ [] := by
  unfold natToStr
  by_cases h : n = 0
  · rw [if_pos h]; decide
  · rw [if_neg h]
    show natDigsAux n n ≠ []
    cases n with
    | zero => exact absurd rfl h
    | succ m =>
      rw [natDigsAux, if_neg h]
      simp

theorem pad2_ne_nil (n : Nat) : (pad2 n).data ≠ [] := by
  unfold pad2
  by_cases h : n < 10
  · rw [if_pos h, strData_append]
    simp
  · rw [if_neg h]
    exact natToStr_ne_nil n

theorem strLen_data (s : String) : s.length = s.data.length := by
  cases s; rfl

theorem strfDateU_len (x : ℤ) : 1 ≤ (strfDateU x).length := by
  unfold strfDateU
  rcases hdt : dtFields x with ⟨y, m, d, h, mi, s⟩
  show 1 ≤ (pad2 d ++ "-" ++ monU m ++ "-" ++ natToStr y).length
  have h1 : 0 < (pad2 d).data.length := List.length_pos.mpr (pad2_ne_nil d)
  simp only [strLen_data, strData_append, List.length_append]
  omega

theorem strfU_len (fmt : Fmt) (x : ℤ) : 1 ≤ (strfU fmt x).length := by
  have h1 := strfDateU_len x
  rw [strLen_data] at h1
  cases fmt
  · show 1 ≤ (strfDateU x ++ " " ++ strfHMS x).length
    simp only [strLen_data, strData_append, List.length_append]
    omega
  · show 1 ≤ (strfDateU x ++ " " ++ strfHM x).length
    simp only [strLen_data, strData_append, List.length_append]
    omega
  · show 1 ≤ (strfDateU x).length
    rw [strLen_data]
    exact h1

/-- C9: a classified findings fragment is rewritten by the splice
`t[:idx] ++ r ++ t[idx + len(r):]` where `r` is the uppercased shifted
rendering and `idx` is the case-insensitive `find` of the canonical
zero-padded re-rendering of the parsed date; `idx = -1` exactly when that
canonical rendering does not occur as a substring of the lowered fragment, and
the Python slices then splice at the tail: the last character is dropped and
the suffix restarts at position `len(r) - 1`, so the fragment is modified
rather than left untouched. -/
theorem C9_splice_semantics (ecgDate deidDate : ℤ) (t : String) (v : ℤ)
    (fmt : Fmt) (hp : parseFuzzy t = some v) (hf : findingFmt t = some fmt) :
    findingStep ecgDate deidDate t =
      FindRes.updated
        (pySliceTo t (pyFind (lowerS t) (lowerS (strfM fmt v))) ++
         strfU fmt (shiftFinding v ecgDate deidDate) ++
         pySliceFrom t
           (pyFind (lowerS t) (lowerS (strfM fmt v)) +
            ((strfU fmt (shiftFinding v ecgDate deidDate)).length : ℤ))) ∧
    (pyFind (lowerS t) (lowerS (strfM fmt v)) = -1 ↔
      ∀ k, leadMatch ((lowerS t).data.drop k) (lowerS (strfM fmt v)).data = false) ∧
    (pyFind (lowerS t) (lowerS (strfM fmt v)) = -1 →
      pySliceTo t (pyFind (lowerS t) (lowerS (strfM fmt v)))
          = ⟨t.data.take (t.data.length - 1)⟩ ∧
      pySliceFrom t
          (pyFind (lowerS t) (lowerS (strfM fmt v)) +
           ((strfU fmt (shiftFinding v ecgDate deidDate)).length : ℤ))
          = ⟨t.data.drop
              ((strfU fmt (shiftFinding v ecgDate deidDate)).length - 1)⟩) := by
  refine ⟨?_, ?_, ?_⟩
  · unfold findingStep
    rw [hp, hf]
  · unfold pyFind
    rcases hF : findFrom (lowerS t).data (lowerS (strfM fmt v)).data 0 with _ | i
    · show (-1 : ℤ) = -1 ↔ _
      constructor
      · intro _
        exact (findFrom_none _ _ 0).1 hF
      · intro _; rfl
    · show (i : ℤ) = -1 ↔ _
      constructor
      · intro hc
        exfalso
        omega
      · intro hk
        exfalso
        have h2 := (findFrom_none _ _ 0).2 hk
        rw [hF] at h2
        cases h2
  · intro hneg
    rw [hneg]
    have hlen := strfU_len fmt (shiftFinding v ecgDate deidDate)
    constructor
    · have hn : sliceIdx t.data.length (-1) = t.data.length - 1 := by
        unfold sliceIdx
        rw [if_neg (by norm_num)]
        omega
      unfold pySliceTo
      rw [hn]
    · have hm : sliceIdx t.data.length
          (-1 + ((strfU fmt (shiftFinding v ecgDate deidDate)).length : ℤ))
          = (strfU fmt (shiftFinding v ecgDate deidDate)).length - 1 := by
        unfold sliceIdx
        rw [if_pos (by omega)]
        omega
      unfold pySliceFrom
      rw [hm]

/-- C9 witness: a fragment whose canonical re-rendering `01-Mar-2020` is not a
substring (the document spells the day without a zero pad), so the
case-insensitive search returns `-1` and the splice drops the final character
and re-attaches the suffix from position `len(r) - 1`. -/
theorem C9_witness :
    parseFuzzy "Compared to prior ECG dated 1-Mar-2020"
        = some (mkDT 2020 3 1 0 0 0) ∧
    findingFmt "Compared to prior ECG dated 1-Mar-2020" = some Fmt.dateOnly ∧
    pyFind (lowerS "Compared to prior ECG dated 1-Mar-2020")
        (lowerS (strfM Fmt.dateOnly (mkDT 2020 3 1 0 0 0))) = -1 ∧
    findingStep (mkDT 2020 3 15 10 30 0) (mkDT 2000 1 1 0 0 0)
        "Compared to prior ECG dated 1-Mar-2020" =
      FindRes.updated
        (pySliceTo "Compared to prior ECG dated 1-Mar-2020"
            (pyFind (lowerS "Compared to prior ECG dated 1-Mar-2020")
              (lowerS (strfM Fmt.dateOnly (mkDT 2020 3 1 0 0 0)))) ++
         strfU Fmt.dateOnly
            (shiftFinding (mkDT 2020 3 1 0 0 0) (mkDT 2020 3 15 10 30 0)
              (mkDT 2000 1 1 0 0 0)) ++
         pySliceFrom "Compared to prior ECG dated 1-Mar-2020"
            (pyFind (lowerS "Compared to prior ECG dated 1-Mar-2020")
              (lowerS (strfM Fmt.dateOnly (mkDT 2020 3 1 0 0 0))) +
             ((strfU Fmt.dateOnly
                (shiftFinding (mkDT 2020 3 1 0 0 0) (mkDT 2020 3 15 10 30 0)
                  (mkDT 2000 1 1 0 0 0))).length : ℤ))) ∧
    findingStep (mkDT 2020 3 15 10 30 0) (mkDT 2000 1 1 0 0 0)
        "Compared to prior ECG dated 1-Mar-2020" =
      FindRes.updated
        "Compared to prior ECG dated 1-Mar-20217-DEC-1999o prior ECG dated 1-Mar-2020" := by
  refine ⟨by rfl, by rfl, by rfl, ?_, by rfl⟩
  exact (C9_splice_semantics (mkDT 2020 3 15 10 30 0) (mkDT 2000 1 1 0 0 0)
    "Compared to prior ECG dated 1-Mar-2020" (mkDT 2020 3 1 0 0 0) Fmt.dateOnly
    (by rfl) (by rfl)).1

theorem getD_set_ne (l : List Frag) (k j : Nat) (a : Frag) (h : k ≠ j) :
    (l.set k a).getD j frag0 = l.getD j frag0 := by
  simp [List.getD_eq_getElem?_getD, List.getElem?_set_ne h]

theorem getD_set_self (l : List Frag) (k : Nat) (a : Frag) (h : k < l.length) :
    (l.set k a).getD k frag0 = a := by
  simp [List.getD_eq_getElem?_getD, List.getElem?_set_self, h]

theorem findingStep_unchanged_parse (e d : ℤ) (t : String)
    (h : findingStep e d t = FindRes.unchanged) : parseFuzzy t = none := by
  unfold findingStep at h
  cases hp : parseFuzzy t with
  | none => rfl
  | some v =>
    rw [hp] at h
    cases hf : findingFmt t with
    | none => rw [hf] at h; cases h
    | some fmt => rw [hf] at h; cases h

theorem findingStep_updated_fmt (e d : ℤ) (t : String) (t2 : String)
    (h : findingStep e d t = FindRes.updated t2) :
    (parseFuzzy t).isSome ∧ (findingFmt t).isSome := by
  unfold findingStep at h
  cases hp : parseFuzzy t with
  | none => rw [hp] at h; cases h
  | some v =>
    rw [hp] at h
    cases hf : findingFmt t with
    | none => rw [hf] at h; cases h
    | some fmt => exact ⟨rfl, rfl⟩

theorem findingsGo_frame (e d : ℤ) :
    ∀ (c i : Nat) (l : List Frag) (log : List String) (j : Nat),
      (j < i ∨ i + c ≤ j ∨ parseFuzzy ((l.getD j frag0).text) = none) →
      (findingsGo e d l i c log).1.getD j frag0 = l.getD j frag0 := by
  intro c
  induction c with
  | zero => intro i l log j _; rfl
  | succ c ih =>
    intro i l log j hj
    rw [findingsGo]
    rcases hstep : findingStep e d ((l.getD i frag0).text) with _ | t2 | _
    · refine ih (i + 1) l log j ?_
      rcases hj with h | h | h
      · exact Or.inl (by omega)
      · exact Or.inr (Or.inl (by omega))
      · exact Or.inr (Or.inr h)
    · have hji : i ≠ j := by
        intro he
        subst he
        rcases hj with h | h | h
        · omega
        · omega
        · have := findingStep_updated_fmt e d _ _ hstep
          rw [h] at this
          cases this.1
      have hgd : (l.set i { l.getD i frag0 with text := t2 }).getD j frag0
          = l.getD j frag0 := getD_set_ne l i j _ hji
      rw [ih (i + 1) _ log j ?_, hgd]
      rcases hj with h | h | h
      · exact Or.inl (by omega)
      · exact Or.inr (Or.inl (by omega))
      · exact Or.inr (Or.inr (by rw [hgd]; exact h))
    · rfl

theorem findingsGo_fail (e d : ℤ) :
    ∀ (c i : Nat) (l : List Frag) (log : List String),
      (∃ j, i ≤ j ∧ j < i + c ∧ (parseFuzzy ((l.getD j frag0).text)).isSome ∧
        findingFmt ((l.getD j frag0).text) = none) →
      (findingsGo e d l i c log).2.2 = false ∧
      ∃ pre t, (findingsGo e d l i c log).2.1 = pre ++ [logUnknown t] := by
  intro c
  induction c with
  | zero =>
    intro i l log h
    obtain ⟨j, h1, h2, _⟩ := h
    omega
  | succ c ih =>
    intro i l log h
    obtain ⟨j, h1, h2, hsome, hfmt⟩ := h
    rw [findingsGo]
    rcases hstep : findingStep e d ((l.getD i frag0).text) with _ | t2 | _
    · refine ih (i + 1) l log ⟨j, ?_, by omega, hsome, hfmt⟩
      rcases Nat.lt_or_ge i j with h3 | h3
      · omega
      · exfalso
        have hij : i = j := by omega
        subst hij
        rw [findingStep_unchanged_parse e d _ hstep] at hsome
        cases hsome
    · have hji : i ≠ j := by
        intro he
        subst he
        have := findingStep_updated_fmt e d _ _ hstep
        rw [hfmt] at this
        cases this.2
      have hgd : (l.set i { l.getD i frag0 with text := t2 }).getD j frag0
          = l.getD j frag0 := getD_set_ne l i j _ hji
      refine ih (i + 1) _ log ⟨j, by omega, by omega, ?_, ?_⟩
      · rw [hgd]; exact hsome
      · rw [hgd]; exact hfmt
    · exact ⟨rfl, log, (l.getD i frag0).text, rfl⟩

/-- C10: the timestamp-shifting pass touches only fragments with index in the
half-open findings range `[lo, hi)` (instantiated in `deidentify` as one past
the `Geisinger Health System` banner up to, but excluding, the `25mm/s`
fragment): the banner, the `25mm/s` fragment, every fragment outside the
range, and every in-range fragment whose text does not fuzzy-parse as a date
are left exactly as they were by that pass. -/
theorem C10_findings_frame (ecgDate deidDate : ℤ) (l : List Frag)
    (lo hi : Nat) (log : List String) (j : Nat)
    (h : j < lo ∨ hi ≤ j ∨ parseFuzzy ((l.getD j frag0).text) = none) :
    (findingsGo ecgDate deidDate l lo (hi - lo) log).1.getD j frag0
      = l.getD j frag0 := by
  refine findingsGo_frame ecgDate deidDate (hi - lo) lo l log j ?_
  rcases h with h | h | h
  · exact Or.inl h
  · rcases Nat.lt_or_ge j lo with h2 | h2
    · exact Or.inl h2
    · exact Or.inr (Or.inl (by omega))
  · exact Or.inr (Or.inr h)

/-- C10 witness: the banner fragment (index 3) of the §8 document is untouched
by the findings pass over the range `[4, 5)`. -/
theorem C10_witness :
    (3 < 4 ∨ 5 ≤ 3 ∨ parseFuzzy ((demoDoc.getD 3 frag0).text) = none) ∧
    (findingsGo (mkDT 2020 3 15 10 30 0) (mkDT 2000 1 1 0 0 0) demoDoc 4 (5 - 4)
        []).1.getD 3 frag0 = demoDoc.getD 3 frag0 :=
  ⟨Or.inl (by decide),
   C10_findings_frame (mkDT 2020 3 15 10 30 0) (mkDT 2000 1 1 0 0 0) demoDoc 4 5
     [] 3 (Or.inl (by decide))⟩

/-- C5: whenever the redaction reaches the findings loop and some in-range
fragment fuzzy-parses as a date but its dash/colon counts match none of the
three recognized patterns, the document is a document-level failure: a
`Unknown DT in finding` line is logged and `deidentify` returns a `fail`
outcome — never an `ok`, so no output document (and no output file name) is
produced for that document. -/
theorem C5_unknown_format_fails (mrn : String) (frags : List Frag)
    (ecgKey : EcgKey) (idKey : IdKey)
    (iMrn iGhs iPrt iMm : Nat) (ecgFrag : Frag) (ecgDate : ℤ)
    (ptId : String) (bday deidDate : ℤ) (fw : List Frag × List String)
    (h1 : (locate frags).mrn = some iMrn)
    (h2 : (locate frags).ghs = some iGhs)
    (h3 : (locate frags).prtaxes = some iPrt)
    (h4 : pyGet frags ((iMrn : ℤ) + 1) = some ecgFrag)
    (h5 : parseAnchor ecgFrag.text = some ecgDate)
    (h6 : (ddGet idKey mrn).1.head? = some (ptId, bday))
    (h7 : List.lookup ecgDate (ddGet ecgKey mrn).1 = some deidDate)
    (h8 : deidMutate iMrn iPrt (locate frags) ptId bday deidDate frags = some fw)
    (h9 : (locate frags).mm25 = some iMm)
    (hbad : ∃ j, iGhs + 1 ≤ j ∧ j < iMm ∧
        (parseFuzzy ((fw.1.getD j frag0).text)).isSome = true ∧
        findingFmt ((fw.1.getD j frag0).text) = none) :
    ∃ pre t,
      (deidentify mrn frags ecgKey idKey).1
        = Outcome.fail (fw.2 ++ (pre ++ [logUnknown t])) := by
  obtain ⟨j, hj1, hj2, hjs, hjf⟩ := hbad
  obtain ⟨hfalse, pre, t, hlog⟩ :=
    findingsGo_fail ecgDate deidDate (iMm - (iGhs + 1)) (iGhs + 1) fw.1 []
      ⟨j, hj1, by omega, hjs, hjf⟩
  refine ⟨pre, t, ?_⟩
  simp only [deidentify, h1, h2, h3, h4, h5, h6, h7, h8, h9, hfalse, hlog]
  simp

/-- C5 witness: the `demoDocBad` findings fragment has two dashes and three
colons; the document fails with an `Unknown DT in finding` log line and no
output. -/
theorem C5_witness :
    ∃ pre t,
      (deidentify "12345" demoDocBad demoEcgKey demoIdKey).1
        = Outcome.fail
            (([] : List String) ++ (pre ++ [logUnknown t])) := by
  refine C5_unknown_format_fails "12345" demoDocBad demoEcgKey demoIdKey
    1 3 9 5 ⟨"15-Mar-2020 10:30:00", ["10", "13"]⟩ (mkDT 2020 3 15 10 30 0)
    "PT001" (mkDT 1950 1 10 0 0 0) (mkDT 2000 1 1 0 0 0)
    ([⟨"PT001", ["10"]⟩,
      ⟨"", []⟩,
      ⟨"01-Jan-2000 00:00:00", ["10"]⟩,
      ⟨"Geisinger Health System", ["200"]⟩,
      ⟨"Noted 14-Mar-2020 10:30:00 extra:", ["220"]⟩,
      ⟨"25mm/s", ["230"]⟩,
      ⟨"Referred by:", ["240"]⟩,
      ⟨"Confirmed By:", ["250"]⟩,
      ⟨"Technician:", ["260"]⟩,
      ⟨"P-R-T axes", ["270"]⟩,
      ⟨"10-JAN-1950 (49 yr)", ["280"]⟩,
      ⟨"", []⟩], [])
    (by rfl) (by rfl) (by rfl) (by rfl) (by rfl) (by rfl) (by rfl) (by rfl)
    (by rfl) ⟨4, by decide, by decide, by rfl, by rfl⟩

theorem pySet_some (l : List Frag) (i : ℤ) (g : Frag → Frag) (l2 : List Frag)
    (h : pySet l i g = some l2) :
    ∃ k, pyIdx l.length i = some k ∧ l2 = l.set k (g (l.getD k frag0)) := by
  unfold pySet at h
  cases hk : pyIdx l.length i with
  | none => rw [hk] at h; cases h
  | some k =>
    rw [hk] at h
    injection h with h
    exact ⟨k, rfl, h.symm⟩

theorem pySet_length (l : List Frag) (i : ℤ) (g : Frag → Frag) (l2 : List Frag)
    (h : pySet l i g = some l2) : l2.length = l.length := by
  obtain ⟨k, _, rfl⟩ := pySet_some l i g l2 h
  simp

theorem pyIdx_nonneg_some (n : Nat) (i : ℤ) (k : Nat) (hi : 0 ≤ i)
    (h : pyIdx n i = some k) : (k : ℤ) = i ∧ k < n := by
  unfold pyIdx at h
  rw [if_pos hi] at h
  by_cases h2 : i < (n : ℤ)
  · rw [if_pos h2] at h
    injection h with h
    omega
  · rw [if_neg h2] at h
    cases h

theorem pyIdx_neg1_some (n k : Nat) (h : pyIdx n (-1) = some k) : k + 1 = n := by
  unfold pyIdx at h
  rw [if_neg (by norm_num)] at h
  by_cases h2 : (0 : ℤ) ≤ (n : ℤ) + -1
  · rw [if_pos h2] at h
    injection h with h
    omega
  · rw [if_neg h2] at h
    cases h

theorem setLabel_fst_getD_ne (l : List Frag) (o : Option Nat)
    (label warn : String) (log : List String) (j : Nat) (h : o ≠ some j) :
    ((setLabel l o label warn log).1).getD j frag0 = l.getD j frag0 := by
  cases o with
  | none => rfl
  | some i =>
    have hij : i ≠ j := fun he => h (by rw [he])
    exact getD_set_ne _ _ _ _ hij

theorem deidMutate_bday (iMrn iPrt : Nat) (loc2 : Located) (ptId : String)
    (bday deidDate : ℤ) (frags : List Frag) (fw : List Frag × List String)
    (hmut : deidMutate iMrn iPrt loc2 ptId bday deidDate frags = some fw)
    (hb1 : iPrt + 1 ≠ iMrn)
    (hb2 : iPrt + 2 ≠ frags.length)
    (hb3 : loc2.technician ≠ some (iPrt + 1))
    (hb4 : loc2.confby ≠ some (iPrt + 1))
    (hb5 : loc2.refby ≠ some (iPrt + 1)) :
    (fw.1.getD (iPrt + 1) frag0).text
      = strfDateU bday ++ " (" ++ intToStr (rdYears deidDate bday) ++ " yr)" := by
  unfold deidMutate at hmut
  cases hA : pySet frags ((iMrn : ℤ) - 1)
      (fun f => { f with text := ptId, xs := f.xs.take 1 }) with
  | none => simp only [hA] at hmut; cases hmut
  | some f1 =>
  simp only [hA] at hmut
  cases hB : pySet f1 ((iMrn : ℤ) + 1)
      (fun f => { f with text := strfFullM deidDate, xs := f.xs.take 1 }) with
  | none => simp only [hB] at hmut; cases hmut
  | some f2 =>
  simp only [hB] at hmut
  cases hC : pySet f2 ((iPrt : ℤ) + 1)
      (fun f =>
        { f with text :=
            strfDateU bday ++ " (" ++ intToStr (rdYears deidDate bday) ++ " yr)" }) with
  | none => simp only [hC] at hmut; cases hmut
  | some f3 =>
  simp only [hC] at hmut
  cases hD : pySet f3 (-1) (fun _ => frag0) with
  | none => simp only [hD] at hmut; cases hmut
  | some f4 =>
  simp only [hD] at hmut
  cases hE : pySet f4 (iMrn : ℤ) (fun _ => frag0) with
  | none => simp only [hE] at hmut; cases hmut
  | some f5 =>
  simp only [hE] at hmut
  injection hmut with hmut
  have lenA := pySet_length _ _ _ _ hA
  have lenB := pySet_length _ _ _ _ hB
  have lenC := pySet_length _ _ _ _ hC
  obtain ⟨k3, hk3, hf3⟩ := pySet_some _ _ _ _ hC
  obtain ⟨hk3v, hk3lt⟩ := pyIdx_nonneg_some _ _ _ (by omega) hk3
  have hk3e : k3 = iPrt + 1 := by omega
  subst hk3e
  have h3v : (f3.getD (iPrt + 1) frag0).text
      = strfDateU bday ++ " (" ++ intToStr (rdYears deidDate bday) ++ " yr)" := by
    rw [hf3, getD_set_self _ _ _ hk3lt]
  obtain ⟨k4, hk4, hf4⟩ := pySet_some _ _ _ _ hD
  have hk4v := pyIdx_neg1_some _ _ hk4
  have h4ne : k4 ≠ iPrt + 1 := by omega
  have h4v : f4.getD (iPrt + 1) frag0 = f3.getD (iPrt + 1) frag0 := by
    rw [hf4]
    exact getD_set_ne _ _ _ _ h4ne
  obtain ⟨k5, hk5, hf5⟩ := pySet_some _ _ _ _ hE
  obtain ⟨hk5v, _⟩ := pyIdx_nonneg_some _ _ _ (by omega) hk5
  have h5ne : k5 ≠ iPrt + 1 := by omega
  have h5v : f5.getD (iPrt + 1) frag0 = f4.getD (iPrt + 1) frag0 := by
    rw [hf5]
    exact getD_set_ne _ _ _ _ h5ne
  rw [← hmut]
  show ((setLabel (setLabel (setLabel f5 loc2.technician "Technician:"
      (logMissing "Technician:") []).1 loc2.confby "Confirmed By:"
      (logMissing "Confirmed by:") _).1 loc2.refby "Referred by:"
      (logMissing "Referred by:") _).1.getD (iPrt + 1) frag0).text = _
  rw [setLabel_fst_getD_ne _ _ _ _ _ _ hb5, setLabel_fst_getD_ne _ _ _ _ _ _ hb4,
    setLabel_fst_getD_ne _ _ _ _ _ _ hb3, h5v, h4v, h3v]

/-- C1 amended: for a successfully processed document (with the birthdate
fragment at its template position: distinct from the cleared MRN and trailing
fragments and from the relabelled optional fragments, and outside the findings
range), the birthdate fragment shows the SURROGATE birthdate followed by the
whole-year difference between the SURROGATE anchor timestamp and the SURROGATE
birthdate — both taken from the key tables; the real birthdate-of-record is
not an input to the program, so the claimed age from real dates is not what is
rendered (see the counterexample), though the real birthdate indeed never
appears. -/
theorem C1_age_from_surrogates (mrn : String) (frags : List Frag)
    (ecgKey : EcgKey) (idKey : IdKey)
    (iMrn iGhs iPrt iMm : Nat) (ecgFrag : Frag) (ecgDate : ℤ)
    (ptId : String) (bday deidDate : ℤ) (fw : List Frag × List String)
    (F : List Frag) (N : String) (L : List String)
    (h1 : (locate frags).mrn = some iMrn)
    (h2 : (locate frags).ghs = some iGhs)
    (h3 : (locate frags).prtaxes = some iPrt)
    (h4 : pyGet frags ((iMrn : ℤ) + 1) = some ecgFrag)
    (h5 : parseAnchor ecgFrag.text = some ecgDate)
    (h6 : (ddGet idKey mrn).1.head? = some (ptId, bday))
    (h7 : List.lookup ecgDate (ddGet ecgKey mrn).1 = some deidDate)
    (h8 : deidMutate iMrn iPrt (locate frags) ptId bday deidDate frags = some fw)
    (h9 : (locate frags).mm25 = some iMm)
    (hb1 : iPrt + 1 ≠ iMrn)
    (hb2 : iPrt + 2 ≠ frags.length)
    (hb3 : (locate frags).technician ≠ some (iPrt + 1))
    (hb4 : (locate frags).confby ≠ some (iPrt + 1))
    (hb5 : (locate frags).refby ≠ some (iPrt + 1))
    (hrange : iPrt + 1 ≤ iGhs ∨ iMm ≤ iPrt + 1)
    (hok : (deidentify mrn frags ecgKey idKey).1 = Outcome.ok F N L) :
    (F.getD (iPrt + 1) frag0).text
      = strfDateU bday ++ " (" ++ intToStr (rdYears deidDate bday) ++ " yr)" := by
  simp only [deidentify, h1, h2, h3, h4, h5, h6, h7, h8, h9] at hok
  cases hres : (findingsGo ecgDate deidDate fw.1 (iGhs + 1) (iMm - (iGhs + 1))
      []).2.2 with
  | false => rw [hres] at hok; simp at hok
  | true =>
    rw [hres] at hok
    simp only [if_true] at hok
    injection hok with hok1 hok2 hok3
    rw [← hok1]
    rw [findingsGo_frame ecgDate deidDate (iMm - (iGhs + 1)) (iGhs + 1) fw.1 []
      (iPrt + 1) (by omega)]
    exact deidMutate_bday iMrn iPrt (locate frags) ptId bday deidDate frags fw
      h8 hb1 hb2 hb3 hb4 hb5

/-- C1 witness: the §8 scenario discharges every hypothesis: the rendered
birthdate fragment is the surrogate birthdate with the surrogate-to-surrogate
whole-year difference. -/
theorem C1_witness :
    ((outFrags (deidentify "12345" demoDoc demoEcgKey demoIdKey).1).getD 10
        frag0).text
      = strfDateU (mkDT 1950 1 10 0 0 0) ++ " (" ++
          intToStr (rdYears (mkDT 2000 1 1 0 0 0) (mkDT 1950 1 10 0 0 0)) ++
          " yr)" := by
  refine C1_age_from_surrogates "12345" demoDoc demoEcgKey demoIdKey
    1 3 9 5 ⟨"15-Mar-2020 10:30:00", ["10", "13"]⟩ (mkDT 2020 3 15 10 30 0)
    "PT001" (mkDT 1950 1 10 0 0 0) (mkDT 2000 1 1 0 0 0)
    ([⟨"PT001", ["10"]⟩,
      ⟨"", []⟩,
      ⟨"01-Jan-2000 00:00:00", ["10"]⟩,
      ⟨"Geisinger Health System", ["200"]⟩,
      ⟨"Compared to prior ECG dated 14-Mar-2020", ["220"]⟩,
      ⟨"25mm/s", ["230"]⟩,
      ⟨"Referred by:", ["240"]⟩,
      ⟨"Confirmed By:", ["250"]⟩,
      ⟨"Technician:", ["260"]⟩,
      ⟨"P-R-T axes", ["270"]⟩,
      ⟨"10-JAN-1950 (49 yr)", ["280"]⟩,
      ⟨"", []⟩], [])
    (outFrags (deidentify "12345" demoDoc demoEcgKey demoIdKey).1)
    "PT001_2000-01-01_EKG.svg" []
    (by rfl) (by rfl) (by rfl) (by rfl) (by rfl) (by rfl) (by rfl) (by rfl)
    (by rfl) (by decide) (by decide) (by decide) (by decide) (by decide)
    (Or.inr (by decide)) (by rfl)

theorem scanStep_mrn (l : Located) (rem : List Role) (i : Nat) (t : String)
    (h : l.mrn = none) (ht : strStarts t (pat Role.mrn) = false) :
    (scanStep l rem i t).1.mrn = none := by
  unfold scanStep
  rcases hf : rem.find? (fun r => strStarts t (pat r)) with _ | r
  · exact h
  · have hpred := List.find?_some hf
    cases r with
    | mrn => rw [ht] at hpred; cases hpred
    | ghs => exact h
    | mm25 => exact h
    | refby => exact h
    | confby => exact h
    | prtaxes => exact h
    | technician => exact h

theorem scanGo_mrn_none :
    ∀ (ts : List String) (l : Located) (rem : List Role) (i : Nat),
      l.mrn = none → (∀ t ∈ ts, strStarts t (pat Role.mrn) = false) →
      (scanGo ts l rem i).mrn = none := by
  intro ts
  induction ts with
  | nil => intro l rem i h _; exact h
  | cons t ts ih =>
    intro l rem i h hall
    rw [scanGo]
    exact ih _ _ _ (scanStep_mrn l rem i t h (hall t (List.mem_cons_self t ts)))
      (fun t2 ht2 => hall t2 (List.mem_cons_of_mem t ht2))

theorem locate_mrn_none (frags : List Frag)
    (h : ∀ f ∈ frags, strStarts f.text (pat Role.mrn) = false) :
    (locate frags).mrn = none := by
  unfold locate
  refine scanGo_mrn_none _ _ _ _ rfl ?_
  intro t ht
  rcases List.mem_map.1 ht with ⟨f, hf, rfl⟩
  exact h f hf

/-- C2 amended: a document with no fragment matching the `ID:` anchor does not
produce a caught document-level failure — `ele_idx['mrn']` is still the
pattern string, line 108 computes `'ID:' - 1`, and the resulting `TypeError`
escapes `deidentify` uncaught; since the batch loop of `main` has no handler
around the call, the exception aborts the whole batch and the remaining
documents are never processed.  (The `Geisinger Health System` and `P-R-T
axes` anchors behave the same at lines 110 and 112, and a missing `25mm/s`
anchor raises at the `range` call of line 192 if no earlier per-document
failure returned first.) -/
theorem C2_amended_typeerror (mrn : String) (frags : List Frag)
    (ecgKey : EcgKey) (idKey : IdKey) (rest : List (String × List Frag))
    (h : ∀ f ∈ frags, strStarts f.text (pat Role.mrn) = false) :
    (deidentify mrn frags ecgKey idKey).1 = Outcome.exc "TypeError" ∧
    runBatch ((mrn, frags) :: rest) ecgKey idKey = Except.error "TypeError" := by
  have hm := locate_mrn_none frags h
  have htrip : deidentify mrn frags ecgKey idKey
      = (Outcome.exc "TypeError", ecgKey, idKey) := by
    simp only [deidentify, hm]
  refine ⟨by rw [htrip], ?_⟩
  rw [runBatch, htrip]

/-- C2 witness: a batch whose only document has no anchors at all aborts with
the uncaught `TypeError`. -/
theorem C2_witness :
    (deidentify "99999" badDoc demoEcgKey demoIdKey).1 = Outcome.exc "TypeError" ∧
    runBatch [("99999", badDoc)] demoEcgKey demoIdKey
      = Except.error "TypeError" :=
  C2_amended_typeerror "99999" badDoc demoEcgKey demoIdKey [] (by decide)

/-- C6 amended: an MRN with no surrogate identity, or an anchor timestamp
missing from that MRN's timestamp-key mapping (the lookup is by the exact
parsed value), is a logged document-level failure returning `fail` — no output
document; but an MRN with more than one surrogate identity IS processed: the
first-listed identity is used (see the counterexample). -/
theorem C6_amended_key_lookups :
    (∀ (mrn : String) (frags : List Frag) (ecgKey : EcgKey) (idKey : IdKey)
        (iMrn iGhs iPrt : Nat) (ecgFrag : Frag) (ecgDate : ℤ),
      (locate frags).mrn = some iMrn →
      (locate frags).ghs = some iGhs →
      (locate frags).prtaxes = some iPrt →
      pyGet frags ((iMrn : ℤ) + 1) = some ecgFrag →
      parseAnchor ecgFrag.text = some ecgDate →
      (ddGet idKey mrn).1.head? = none →
      deidentify mrn frags ecgKey idKey
        = (Outcome.fail [logNoMrn mrn], ecgKey, (ddGet idKey mrn).2)) ∧
    (∀ (mrn : String) (frags : List Frag) (ecgKey : EcgKey) (idKey : IdKey)
        (iMrn iGhs iPrt : Nat) (ecgFrag : Frag) (ecgDate : ℤ)
        (ptId : String) (bday : ℤ),
      (locate frags).mrn = some iMrn →
      (locate frags).ghs = some iGhs →
      (locate frags).prtaxes = some iPrt →
      pyGet frags ((iMrn : ℤ) + 1) = some ecgFrag →
      parseAnchor ecgFrag.text = some ecgDate →
      (ddGet idKey mrn).1.head? = some (ptId, bday) →
      List.lookup ecgDate (ddGet ecgKey mrn).1 = none →
      deidentify mrn frags ecgKey idKey
        = (Outcome.fail [logNoDate mrn ecgDate], (ddGet ecgKey mrn).2,
           (ddGet idKey mrn).2)) ∧
    isOk (deidentify "12345" demoDoc demoEcgKey demoIdKey2).1 = true := by
  refine ⟨?_, ?_, by decide⟩
  · intro mrn frags ecgKey idKey iMrn iGhs iPrt ecgFrag ecgDate
      k1 k2 k3 k4 k5 k6
    simp only [deidentify, k1, k2, k3, k4, k5, k6]
  · intro mrn frags ecgKey idKey iMrn iGhs iPrt ecgFrag ecgDate ptId bday
      k1 k2 k3 k4 k5 k6 k7
    simp only [deidentify, k1, k2, k3, k4, k5, k6, k7]

/-- C6 witness: with an empty identity key the §8 document fails with the
`not present in ID key` log line (and the identity key gains the empty
entry); with an empty timestamp key it fails with the `not present in ECG
key` line. -/
theorem C6_witness :
    deidentify "12345" demoDoc demoEcgKey ([] : IdKey)
      = (Outcome.fail [logNoMrn "12345"], demoEcgKey, [("12345", [])]) ∧
    deidentify "12345" demoDoc ([] : EcgKey) demoIdKey
      = (Outcome.fail [logNoDate "12345" (mkDT 2020 3 15 10 30 0)],
         [("12345", [])], demoIdKey) :=
  ⟨C6_amended_key_lookups.1 "12345" demoDoc demoEcgKey []
      1 3 9 ⟨"15-Mar-2020 10:30:00", ["10", "13"]⟩ (mkDT 2020 3 15 10 30 0)
      (by rfl) (by rfl) (by rfl) (by rfl) (by rfl) (by rfl),
   C6_amended_key_lookups.2.1 "12345" demoDoc [] demoIdKey
      1 3 9 ⟨"15-Mar-2020 10:30:00", ["10", "13"]⟩ (mkDT 2020 3 15 10 30 0)
      "PT001" (mkDT 1950 1 10 0 0 0)
      (by rfl) (by rfl) (by rfl) (by rfl) (by rfl) (by rfl) (by rfl)⟩

theorem ddGet_snd_spec {α : Type} (k : List (String × List α)) (m : String) :
    (ddGet k m).2 = k ∨
      (List.lookup m k = none ∧ (ddGet k m).2 = k ++ [(m, [])]) := by
  unfold ddGet
  cases h : List.lookup m k with
  | some v => exact Or.inl rfl
  | none => exact Or.inr ⟨rfl, rfl⟩

theorem lookup_append_ne {α : Type} (k : List (String × α)) (m mrn : String)
    (a : α) (h : m ≠ mrn) :
    List.lookup m (k ++ [(mrn, a)]) = List.lookup m k := by
  induction k with
  | nil =>
    have hbe : (m == mrn) = false := by
      simp [h]
    simp [List.lookup, hbe]
  | cons p t ih =>
    cases p with
    | mk k1 v1 =>
      rw [List.cons_append]
      simp only [List.lookup]
      cases hbe : m == k1
      · simpa using ih
      · rfl

theorem keysAfter (mrn : String) (frags : List Frag) (ecgKey : EcgKey)
    (idKey : IdKey) :
    ((deidentify mrn frags ecgKey idKey).2.1 = ecgKey ∨
      (deidentify mrn frags ecgKey idKey).2.1 = (ddGet ecgKey mrn).2) ∧
    ((deidentify mrn frags ecgKey idKey).2.2 = idKey ∨
      (deidentify mrn frags ecgKey idKey).2.2 = (ddGet idKey mrn).2) := by
  cases h1 : (locate frags).mrn with
  | none => simp [deidentify, h1]
  | some iMrn =>
  cases h2 : (locate frags).ghs with
  | none => simp [deidentify, h1, h2]
  | some iGhs =>
  cases h3 : (locate frags).prtaxes with
  | none => simp [deidentify, h1, h2, h3]
  | some iPrt =>
  cases h4 : pyGet frags ((iMrn : ℤ) + 1) with
  | none => simp [deidentify, h1, h2, h3, h4]
  | some ecgFrag =>
  cases h5 : parseAnchor ecgFrag.text with
  | none =>
    simp [deidentify, h1, h2, h3, h4, h5]
  | some ecgDate =>
  cases h6 : (ddGet idKey mrn).1.head? with
  | none =>
    simp [deidentify, h1, h2, h3, h4, h5, h6]
  | some pb =>
  cases pb with
  | mk ptId bday =>
  cases h7 : List.lookup ecgDate (ddGet ecgKey mrn).1 with
  | none =>
    simp [deidentify, h1, h2, h3, h4, h5, h6, h7]
  | some deidDate =>
  cases h8 : deidMutate iMrn iPrt (locate frags) ptId bday deidDate frags with
  | none =>
    simp [deidentify, h1, h2, h3, h4, h5, h6, h7, h8]
  | some fw =>
  cases h9 : (locate frags).mm25 with
  | none =>
    simp [deidentify, h1, h2, h3, h4, h5, h6, h7, h8, h9]
  | some iMm =>
  cases hres : (findingsGo ecgDate deidDate fw.1 (iGhs + 1) (iMm - (iGhs + 1))
      []).2.2 with
  | false =>
    simp [deidentify, h1, h2, h3, h4, h5, h6, h7, h8, h9, hres]
  | true =>
    simp [deidentify, h1, h2, h3, h4, h5, h6, h7, h8, h9, hres]

/-- C7 amended: no invocation of `deidentify` ever changes a mapping stored in
either key table, and lookups of other MRNs are unaffected; however the tables
are NOT immutable: they are `defaultdict`s, and an invocation for a document
whose MRN is absent from a key inserts an empty entry for that MRN at its end,
growing the set of stored MRNs (see the counterexample). -/
theorem C7_amended_defaultdict (mrn : String) (frags : List Frag)
    (ecgKey : EcgKey) (idKey : IdKey) :
    ((deidentify mrn frags ecgKey idKey).2.1 = ecgKey ∨
      (List.lookup mrn ecgKey = none ∧
        (deidentify mrn frags ecgKey idKey).2.1 = ecgKey ++ [(mrn, [])])) ∧
    ((deidentify mrn frags ecgKey idKey).2.2 = idKey ∨
      (List.lookup mrn idKey = none ∧
        (deidentify mrn frags ecgKey idKey).2.2 = idKey ++ [(mrn, [])])) ∧
    (∀ m2, m2 ≠ mrn →
      List.lookup m2 (deidentify mrn frags ecgKey idKey).2.1
          = List.lookup m2 ecgKey ∧
      List.lookup m2 (deidentify mrn frags ecgKey idKey).2.2
          = List.lookup m2 idKey) ∧
    (∀ v, List.lookup mrn ecgKey = some v →
      List.lookup mrn (deidentify mrn frags ecgKey idKey).2.1 = some v) ∧
    (∀ v, List.lookup mrn idKey = some v →
      List.lookup mrn (deidentify mrn frags ecgKey idKey).2.2 = some v) := by
  obtain ⟨hek, hik⟩ := keysAfter mrn frags ecgKey idKey
  have hek2 : (deidentify mrn frags ecgKey idKey).2.1 = ecgKey ∨
      (List.lookup mrn ecgKey = none ∧
        (deidentify mrn frags ecgKey idKey).2.1 = ecgKey ++ [(mrn, [])]) := by
    rcases hek with h | h
    · exact Or.inl h
    · rcases ddGet_snd_spec ecgKey mrn with h2 | ⟨h2, h3⟩
      · exact Or.inl (by rw [h, h2])
      · exact Or.inr ⟨h2, by rw [h, h3]⟩
  have hik2 : (deidentify mrn frags ecgKey idKey).2.2 = idKey ∨
      (List.lookup mrn idKey = none ∧
        (deidentify mrn frags ecgKey idKey).2.2 = idKey ++ [(mrn, [])]) := by
    rcases hik with h | h
    · exact Or.inl h
    · rcases ddGet_snd_spec idKey mrn with h2 | ⟨h2, h3⟩
      · exact Or.inl (by rw [h, h2])
      · exact Or.inr ⟨h2, by rw [h, h3]⟩
  refine ⟨hek2, hik2, ?_, ?_, ?_⟩
  · intro m2 hm2
    constructor
    · rcases hek2 with h | ⟨_, h⟩
      · rw [h]
      · rw [h, lookup_append_ne _ _ _ _ hm2]
    · rcases hik2 with h | ⟨_, h⟩
      · rw [h]
      · rw [h, lookup_append_ne _ _ _ _ hm2]
  · intro v hv
    rcases hek2 with h | ⟨h2, _⟩
    · rw [h, hv]
    · rw [h2] at hv
      cases hv
  · intro v hv
    rcases hik2 with h | ⟨h2, _⟩
    · rw [h, hv]
    · rw [h2] at hv
      cases hv

/-- C7 witness: a lookup of a different MRN is unchanged by processing the §8
document. -/
theorem C7_witness :
    List.lookup "777" (deidentify "12345" demoDoc demoEcgKey demoIdKey).2.1
        = List.lookup "777" demoEcgKey ∧
    List.lookup "777" (deidentify "12345" demoDoc demoEcgKey demoIdKey).2.2
        = List.lookup "777" demoIdKey :=
  (C7_amended_defaultdict "12345" demoDoc demoEcgKey demoIdKey).2.2.1 "777"
    (by decide)
